import Mathlib

/-!
# ThorVG web canvas binding (`src/wasm/webcanvas/tvgWasmWebCanvas.cpp`)

A shallow embedding of the WebAssembly canvas binding.

* Pointers and opaque platform handles are natural numbers, `0` being the null
  pointer / null handle.
* `uint32_t` values are natural numbers; arithmetic on them is reduced modulo `2^32`.
* Every call that leaves the translated file (WebGPU, WebGL, the rendering engine,
  `malloc`/`free`) is recorded in a call log, and whatever such a call returns is
  supplied from outside, so that nothing is assumed about the platform.
-/

namespace ThorVG

/-! ## Global GPU resource binding (lines 96-101, 144-224) -/

/-- The six file-level statics of the WebGPU section: `instance`, `adapter`, `device`,
`adapterRequested`, `deviceRequested`, `initializationFailed`. -/
structure WgState where
  inst : Nat
  adapter : Nat
  device : Nat
  adapterRequested : Bool
  deviceRequested : Bool
  initializationFailed : Bool
  deriving DecidableEq, Repr

/-- The statics as initialised at lines 96-101. -/
def WgState.uninitialized : WgState :=
  { inst := 0, adapter := 0, device := 0,
    adapterRequested := false, deviceRequested := false, initializationFailed := false }

/-- Platform calls made by the static `init()` / `term()` of `TvgWgEngine`. -/
inductive WgCall where
  | wgpuCreateInstance
  | wgpuInstanceRequestAdapter (inst : Nat)
  | wgpuAdapterRequestDevice (adapter : Nat)
  | wgpuDeviceRelease (device : Nat)
  | wgpuAdapterRelease (adapter : Nat)
  | wgpuInstanceRelease (inst : Nat)
  deriving DecidableEq, Repr

/-- Whether a platform call is an adapter or a device request. -/
def WgCall.isRequest : WgCall → Bool
  | .wgpuInstanceRequestAdapter _ => true
  | .wgpuAdapterRequestDevice _ => true
  | _ => false

/-- Result of one poll: return code, statics afterwards, platform calls in order. -/
structure PollResult where
  code : Nat
  state : WgState
  calls : List WgCall
  deriving DecidableEq, Repr

/-- Source `static int TvgWgEngine::init()` (lines 144-211).  `created` is the handle that
`wgpuCreateInstance(nullptr)` returns if this poll calls it. -/
def TvgWgEngine.init (created : Nat) (s : WgState) : PollResult :=
  if s.initializationFailed then ⟨1, s, []⟩
  else
    -- Init WebGPU instance
    let r : WgState × List WgCall :=
      if s.inst = 0 then ({ s with inst := created }, [WgCall.wgpuCreateInstance]) else (s, [])
    let s1 := r.1
    let c1 := r.2
    -- Request adapter
    if s1.adapter = 0 then
      if s1.adapterRequested then ⟨2, s1, c1⟩
      else ⟨2, { s1 with adapterRequested := true },
              c1 ++ [WgCall.wgpuInstanceRequestAdapter s1.inst]⟩
    -- Request device
    else if s1.deviceRequested then ⟨if s1.device = 0 then 2 else 0, s1, c1⟩
    else if s1.device = 0 then
      ⟨2, { s1 with deviceRequested := true },
        c1 ++ [WgCall.wgpuAdapterRequestDevice s1.adapter]⟩
    else ⟨0, s1, c1⟩

/-- The lambda `onAdapterRequestEnded` (lines 157-165); `userdata1` is `&adapter`.
`success` stands for `status == WGPURequestAdapterStatus_Success`. -/
def onAdapterRequestEnded (success : Bool) (a : Nat) (s : WgState) : WgState :=
  if !success then { s with initializationFailed := true } else { s with adapter := a }

/-- The lambda `onDeviceRequestEnded` (lines 187-194); `userdata1` is `&device`.
`success` stands for `status == WGPURequestDeviceStatus_Success`. -/
def onDeviceRequestEnded (success : Bool) (d : Nat) (s : WgState) : WgState :=
  if !success then { s with initializationFailed := true } else { s with device := d }

/-- Source `static void TvgWgEngine::term()` (lines 213-224): the releases made, in order,
and the statics afterwards. -/
def TvgWgEngine.term (s : WgState) : WgState × List WgCall :=
  let c1 := if s.device ≠ 0 then [WgCall.wgpuDeviceRelease s.device] else []
  let c2 := if s.adapter ≠ 0 then [WgCall.wgpuAdapterRelease s.adapter] else []
  let c3 := if s.inst ≠ 0 then [WgCall.wgpuInstanceRelease s.inst] else []
  ({ inst := 0, adapter := 0, device := 0,
     adapterRequested := false, deviceRequested := false, initializationFailed := false },
   c1 ++ c2 ++ c3)

/-- Build configuration: which of `THORVG_SW_RASTER_SUPPORT`, `THORVG_GL_RASTER_SUPPORT`,
`THORVG_WG_RASTER_SUPPORT` are defined. -/
structure Build where
  sw : Bool
  gl : Bool
  wg : Bool
  deriving DecidableEq, Repr

/-- The exported `int init()` (lines 283-289). -/
def init (b : Build) (created : Nat) (s : WgState) : PollResult :=
  if b.wg then TvgWgEngine.init created s else ⟨0, s, []⟩

/-- The exported `void term()` (lines 291-295). -/
def term (b : Build) (s : WgState) : WgState × List WgCall :=
  if b.wg then TvgWgEngine.term s else (s, [])

/-- What can happen to the binding between two `term()` calls: the host polls
(`created` as in `TvgWgEngine.init`), or the platform runs one of the two callbacks. -/
inductive WgEvent where
  | poll (created : Nat)
  | adapterCallback (success : Bool) (a : Nat)
  | deviceCallback (success : Bool) (d : Nat)
  deriving DecidableEq, Repr

/-- The statics after one event. -/
def WgEvent.apply (s : WgState) : WgEvent → WgState
  | .poll created => (TvgWgEngine.init created s).state
  | .adapterCallback success a => onAdapterRequestEnded success a s
  | .deviceCallback success d => onDeviceRequestEnded success d s

/-- Runs a sequence of events; returns the final statics and, for every poll in the
sequence, its return code and its platform calls (in order). -/
def runEvents : WgState → List WgEvent → WgState × List (Nat × List WgCall)
  | s, [] => (s, [])
  | s, ev :: rest =>
    let r := runEvents (ev.apply s) rest
    match ev with
    | .poll created =>
      (r.1, ((TvgWgEngine.init created s).code, (TvgWgEngine.init created s).calls) :: r.2)
    | _ => r

/-- Consecutive polls with nothing in between: one `PollResult` per poll. -/
def pollMany : WgState → List Nat → List PollResult
  | _, [] => []
  | s, created :: rest =>
    TvgWgEngine.init created s :: pollMany (TvgWgEngine.init created s).state rest

/-- For every poll of a sequence of events, in order: the statics right before the
poll, and the result of the poll. -/
def pollTrace : WgState → List WgEvent → List (WgState × PollResult)
  | _, [] => []
  | s, ev :: rest =>
    match ev with
    | .poll created => (s, TvgWgEngine.init created s) :: pollTrace (ev.apply s) rest
    | _ => pollTrace (ev.apply s) rest

/-- An event is a poll, or a callback that reports success and hands over a non-null
handle (so it neither sets `initializationFailed` nor clears a handle). -/
def WgEvent.keepsSuccess : WgEvent → Bool
  | .poll _ => true
  | .adapterCallback success a => success && a != 0
  | .deviceCallback success d => success && d != 0

/-- Whether an event is a poll. -/
def WgEvent.isPoll : WgEvent → Bool
  | .poll _ => true
  | _ => false

/-! ## Backend strategies (lines 37-278) -/

/-- Reduction of a natural number to `uint32_t`. -/
def u32 (n : Nat) : Nat := n % 2 ^ 32

/-- An `emscripten::val` as produced by `output`: a `typed_memory_view` of `length` bytes
starting at `data`.  `val::undefined()` is `none`. -/
structure MemoryView where
  length : Nat
  data : Nat
  deriving DecidableEq, Repr

/-- What the platform and the rendering engine answer to the calls of one operation.
`wgpuInstanceCreateSurface` receives the instance and the selector, and
`emscripten_webgl_create_context` the selector; `malloc` receives the byte count. -/
structure Platform where
  initializerInit : Bool
  swCanvasGen : Nat
  wgCanvasGen : Nat
  glCanvasGen : Nat
  wgpuInstanceCreateSurface : Nat → String → Nat
  emscripten_webgl_create_context : String → Int
  malloc : Nat → Nat

/-- Calls that leave the file from the canvas classes, as logged. -/
inductive Call where
  | newTvgSwEngine
  | newTvgGlEngine
  | newTvgWgEngine
  | initializerInit
  | initializerTerm
  | loadFont
  | retrieveFont
  | swCanvasGen
  | wgCanvasGen
  | glCanvasGen
  | wgpuInstanceCreateSurface (inst : Nat) (selector : String)
  | wgpuSurfaceRelease (surface : Nat)
  | emscripten_webgl_create_context (selector : String)
  | emscripten_webgl_make_context_current (context : Int)
  | emscripten_webgl_destroy_context (context : Int)
  | free (ptr : Nat)
  | malloc (size : Nat)
  | swTarget (canvas buffer stride w h : Nat)
  | wgTarget (canvas device inst surface w h : Nat)
  | glTarget (canvas : Nat) (context : Int) (w h : Nat)
  | sync (canvas : Nat)
  | remove (canvas : Nat)
  | deleteCanvas (canvas : Nat)
  deriving DecidableEq, Repr

/-- The three concrete `TvgEngineMethod`s with their one data member each:
`TvgSwEngine::buffer`, `TvgWgEngine::surface`, `TvgGlEngine::context`. -/
inductive Engine where
  | sw (buffer : Nat)
  | wg (surface : Nat)
  | gl (context : Int)
  deriving DecidableEq, Repr

/-- Result of `Canvas* init(string& selector)`: the returned canvas pointer, the engine
object afterwards, the calls made. -/
structure AcquireResult where
  canvas : Nat
  engine : Engine
  calls : List Call
  deriving DecidableEq, Repr

/-- Source `TvgSwEngine::init` (lines 65-70). -/
def TvgSwEngine.init (P : Platform) (buffer : Nat) : AcquireResult :=
  if P.initializerInit = false then ⟨0, .sw buffer, [.initializerInit]⟩
  else ⟨P.swCanvasGen, .sw buffer, [.initializerInit, .loadFont, .swCanvasGen]⟩

/-- Source `TvgWgEngine::init(string&)` (lines 114-133); `g` holds the file-level statics, of
which the function reads `instance`.  The old `surface` member is overwritten. -/
def TvgWgEngine.initSurface (P : Platform) (g : WgState) (selector : String) : AcquireResult :=
  let surface := P.wgpuInstanceCreateSurface g.inst selector
  if surface = 0 then ⟨0, .wg surface, [.wgpuInstanceCreateSurface g.inst selector]⟩
  else if P.initializerInit = false then
    ⟨0, .wg surface, [.wgpuInstanceCreateSurface g.inst selector, .initializerInit]⟩
  else
    ⟨P.wgCanvasGen, .wg surface,
      [.wgpuInstanceCreateSurface g.inst selector, .initializerInit, .loadFont, .wgCanvasGen]⟩

/-- Source `TvgGlEngine::init` (lines 247-268).  The old `context` member is overwritten. -/
def TvgGlEngine.init (P : Platform) (selector : String) : AcquireResult :=
  let context := P.emscripten_webgl_create_context selector
  if context = 0 then ⟨0, .gl context, [.emscripten_webgl_create_context selector]⟩
  else if P.initializerInit = false then
    ⟨0, .gl context,
      [.emscripten_webgl_create_context selector, .emscripten_webgl_make_context_current context,
       .initializerInit]⟩
  else
    ⟨P.glCanvasGen, .gl context,
      [.emscripten_webgl_create_context selector, .emscripten_webgl_make_context_current context,
       .initializerInit, .loadFont, .glCanvasGen]⟩

/-- Virtual dispatch of `engine->init(selector)`. -/
def Engine.init (P : Platform) (g : WgState) (selector : String) : Engine → AcquireResult
  | .sw buffer => TvgSwEngine.init P buffer
  | .wg _ => TvgWgEngine.initSurface P g selector
  | .gl _ => TvgGlEngine.init P selector

/-- Virtual dispatch of `engine->resize(canvas, w, h)` (lines 72-79, 135-142, 270-277):
the engine object afterwards and the calls made.  The byte count handed to `malloc` is
`w * h * sizeof(uint32_t)`, the product `w * h` being taken in `uint32_t` and the
result in the 32-bit `size_t` of the wasm32 target. -/
def Engine.resize (P : Platform) (g : WgState) (canvas w h : Nat) : Engine → Engine × List Call
  | .sw buffer =>
    if canvas = 0 then (.sw buffer, [])
    else
      let size := u32 (u32 (w * h) * 4)
      let buffer1 := P.malloc size
      (.sw buffer1, [.free buffer, .malloc size, .swTarget canvas buffer1 w w h])
  | .wg surface =>
    if canvas = 0 then (.wg surface, [])
    else (.wg surface, [.wgTarget canvas g.device g.inst surface w h])
  | .gl context =>
    if canvas = 0 then (.gl context, [])
    else (.gl context, [.glTarget canvas context w h])

/-- Virtual dispatch of `engine->output(w, h)` (lines 42-45, 81-87); the length
`w * h * 4` is computed in `uint32_t`. -/
def Engine.output (w h : Nat) : Engine → Option MemoryView
  | .sw buffer => if buffer ≠ 0 then some ⟨u32 (u32 (w * h) * 4), buffer⟩ else none
  | .wg _ => none
  | .gl _ => none

/-- The destructors `~TvgSwEngine`, `~TvgWgEngine`, `~TvgGlEngine` (lines 58-63,
107-112, 237-245): the calls made. -/
def Engine.destroy : Engine → List Call
  | .sw buffer => [.free buffer, .initializerTerm, .retrieveFont]
  | .wg surface =>
    (if surface ≠ 0 then [Call.wgpuSurfaceRelease surface] else [])
      ++ [.initializerTerm, .retrieveFont]
  | .gl context =>
    (if context ≠ 0 then [Call.initializerTerm, .emscripten_webgl_destroy_context context]
      else []) ++ [.retrieveFont]

/-- The resource member of an engine object is unset: `buffer == nullptr`,
`surface == nullptr`, `context == 0`. -/
def Engine.resourceUnset : Engine → Bool
  | .sw buffer => buffer == 0
  | .wg surface => surface == 0
  | .gl context => context == 0

/-! ## `TvgCanvas` (lines 297-377) -/

/-- Data members of `TvgCanvas`; `engine = none` is the null `TvgEngineMethod*`. -/
structure TvgCanvas where
  canvas : Nat
  engine : Option Engine
  width : Nat
  height : Nat
  errorMsg : String
  deriving DecidableEq, Repr

/-- The three `if (engineType == ...) engine = new ...;` statements of the constructor
(lines 307-315), each present only under its build flag: the `engine` member afterwards
and the allocations made. -/
def selectEngine (b : Build) (engineType : String) : Option Engine × List Call :=
  let r0 : Option Engine × List Call := (none, [])
  let r1 := if b.sw && engineType == "sw" then (some (Engine.sw 0), r0.2 ++ [Call.newTvgSwEngine])
            else r0
  let r2 := if b.gl && engineType == "gl" then (some (Engine.gl 0), r1.2 ++ [Call.newTvgGlEngine])
            else r1
  let r3 := if b.wg && engineType == "wg" then (some (Engine.wg 0), r2.2 ++ [Call.newTvgWgEngine])
            else r2
  r3

/-- Result of a `bool`-returning member function: return value, object afterwards,
calls made. -/
structure OpResult where
  ok : Bool
  self : TvgCanvas
  calls : List Call
  deriving DecidableEq, Repr

/-- Source `bool TvgCanvas::resize(uint32_t w, uint32_t h)` (lines 335-347). -/
def TvgCanvas.resize (P : Platform) (g : WgState) (w h : Nat) (c : TvgCanvas) : OpResult :=
  match c.engine with
  | none => ⟨false, c, []⟩
  | some e =>
    if c.canvas = 0 then ⟨false, c, []⟩
    else if c.width = w ∧ c.height = h then ⟨true, c, []⟩
    else
      let r := e.resize P g c.canvas w h
      ⟨true, { c with width := w, height := h, engine := some r.1 }, Call.sync c.canvas :: r.2⟩

/-- Source `bool TvgCanvas::clear()` (lines 349-353). -/
def TvgCanvas.clear (c : TvgCanvas) : OpResult :=
  if c.canvas = 0 then ⟨false, c, []⟩ else ⟨true, c, [Call.remove c.canvas]⟩

/-- Source `val TvgCanvas::render()` (lines 355-358). -/
def TvgCanvas.render (c : TvgCanvas) : Option MemoryView :=
  match c.engine with
  | none => none
  | some e => if c.canvas = 0 then none else e.output c.width c.height

/-- Source `string TvgCanvas::error()` (lines 331-333). -/
def TvgCanvas.error (c : TvgCanvas) : String := c.errorMsg

/-- Source `val TvgCanvas::size()` (lines 360-365): the `width` and `height` properties. -/
def TvgCanvas.size (c : TvgCanvas) : Nat × Nat := (c.width, c.height)

/-- Source `uintptr_t TvgCanvas::ptr()` (lines 367-369). -/
def TvgCanvas.ptr (c : TvgCanvas) : Nat := c.canvas

/-- The member initialisers of lines 372-376 followed by `errorMsg = "None"`. -/
def TvgCanvas.fresh : TvgCanvas :=
  { canvas := 0, engine := none, width := 0, height := 0, errorMsg := "None" }

/-- The constructor `TvgCanvas(engineType, selector, w, h)` (lines 304-329): the object
constructed and the calls made. -/
def TvgCanvas.new (b : Build) (P : Platform) (g : WgState) (engineType selector : String)
    (w h : Nat) : TvgCanvas × List Call :=
  let sel := selectEngine b engineType
  match sel.1 with
  | none => ({ TvgCanvas.fresh with errorMsg := "Invalid engine" }, sel.2)
  | some e =>
    let a := e.init P g selector
    if a.canvas = 0 then
      ({ TvgCanvas.fresh with engine := some a.engine,
                              errorMsg := "Canvas initialization failed" },
       sel.2 ++ a.calls)
    else
      let r := TvgCanvas.resize P g w h
        { TvgCanvas.fresh with engine := some a.engine, canvas := a.canvas }
      (r.self, sel.2 ++ a.calls ++ r.calls)

/-- The destructor `~TvgCanvas` (lines 299-302): the calls made. -/
def TvgCanvas.destroy (c : TvgCanvas) : List Call :=
  (if c.canvas ≠ 0 then [Call.deleteCanvas c.canvas] else [])
    ++ (match c.engine with
        | none => []
        | some e => e.destroy)

/-- The member functions a host can call on a constructed object besides `error()`,
`size()` and `ptr()`. -/
inductive CanvasOp where
  | resize (w h : Nat)
  | clear
  | render
  deriving DecidableEq, Repr

/-- What one operation hands back to the host. -/
inductive OpValue where
  | bool (b : Bool)
  | view (v : Option MemoryView)
  deriving DecidableEq, Repr

/-- One operation: value returned, object afterwards, calls made.  Every call gets the
platform answers `P` of its own. -/
def CanvasOp.apply (g : WgState) (c : TvgCanvas) :
    Platform × CanvasOp → OpValue × TvgCanvas × List Call
  | (P, .resize w h) =>
    (.bool (c.resize P g w h).ok, (c.resize P g w h).self, (c.resize P g w h).calls)
  | (_, .clear) => (.bool c.clear.ok, c.clear.self, c.clear.calls)
  | (_, .render) => (.view c.render, c, [])

/-- A sequence of operations: final object, and per operation the value returned and
the calls made. -/
def runOps (g : WgState) :
    TvgCanvas → List (Platform × CanvasOp) → TvgCanvas × List (OpValue × List Call)
  | c, [] => (c, [])
  | c, op :: rest =>
    let r := CanvasOp.apply g c op
    let t := runOps g r.2.1 rest
    (t.1, (r.1, r.2.2) :: t.2)

/-- The value with which an operation reports failure: `false`, or `val::undefined()`. -/
def CanvasOp.failure : CanvasOp → OpValue
  | .resize _ _ => .bool false
  | .clear => .bool false
  | .render => .view none

/-! ## Concrete platforms used in the examples -/

/-- A platform on which every call succeeds: canvases are generated at address `4096`,
surfaces and contexts get handle `7`, `malloc` returns `65536`. -/
def okPlatform : Platform :=
  { initializerInit := true, swCanvasGen := 4096, wgCanvasGen := 4096, glCanvasGen := 4096,
    wgpuInstanceCreateSurface := fun _ _ => 7,
    emscripten_webgl_create_context := fun _ => 7,
    malloc := fun _ => 65536 }

/-- As `okPlatform`, but `Initializer::init()` does not return `Result::Success`. -/
def engineInitFails : Platform := { okPlatform with initializerInit := false }

/-- As `okPlatform`, but `malloc` returns a null pointer. -/
def mallocFails : Platform := { okPlatform with malloc := fun _ => 0 }

/-- A build with all three backends compiled in. -/
def fullBuild : Build := { sw := true, gl := true, wg := true }

/-- The statics after the first poll of a fresh binding when `wgpuCreateInstance`
returned handle `1`: instance set, adapter requested, nothing resolved yet. -/
def adapterPending : WgState :=
  (TvgWgEngine.init 1 WgState.uninitialized).state

/-! ## Theorems -/

/-- A poll of a binding marked failed returns 1 and does nothing else. -/
theorem init_of_failed (created : Nat) (s : WgState) (hf : s.initializationFailed = true) :
    TvgWgEngine.init created s = ⟨1, s, []⟩ := by
  simp [TvgWgEngine.init, hf]

/-- No event clears `initializationFailed`. -/
theorem apply_keeps_failed (s : WgState) (ev : WgEvent) (hf : s.initializationFailed = true) :
    (ev.apply s).initializationFailed = true := by
  cases ev with
  | poll created => simp [WgEvent.apply, init_of_failed created s hf, hf]
  | adapterCallback success a =>
    cases success <;> simp [WgEvent.apply, onAdapterRequestEnded, hf]
  | deviceCallback success d =>
    cases success <;> simp [WgEvent.apply, onDeviceRequestEnded, hf]

/-- From a failed binding, every poll of every event sequence returns 1 without calls,
and the binding is still failed at the end. -/
theorem runEvents_of_failed (evs : List WgEvent) :
    ∀ s : WgState, s.initializationFailed = true →
      (runEvents s evs).1.initializationFailed = true ∧
      ∀ r ∈ (runEvents s evs).2, r = (1, []) := by
  induction evs with
  | nil => intro s hf; simp [runEvents, hf]
  | cons ev rest ih =>
    intro s hf
    have h := ih (ev.apply s) (apply_keeps_failed s ev hf)
    cases ev with
    | poll created =>
      simp only [runEvents]
      refine ⟨h.1, ?_⟩
      intro r hr
      rcases List.mem_cons.mp hr with hr | hr
      · rw [hr, init_of_failed created s hf]
      · exact h.2 r hr
    | adapterCallback success a => simpa [runEvents] using h
    | deviceCallback success d => simpa [runEvents] using h

/-- The number of polls recorded by `runEvents` is the number of polls in the sequence. -/
theorem runEvents_length (evs : List WgEvent) :
    ∀ s : WgState, (runEvents s evs).2.length
      = (evs.filter (fun ev => match ev with
                               | .poll _ => true
                               | _ => false)).length := by
  induction evs with
  | nil => intro s; simp [runEvents]
  | cons ev rest ih =>
    intro s
    cases ev <;> simp [runEvents, ih]

/-- A poll that returns 0 leaves adapter and device set and the binding not failed. -/
theorem init_code_zero (created : Nat) (s : WgState)
    (h0 : (TvgWgEngine.init created s).code = 0) :
    s.initializationFailed = false ∧ s.adapter ≠ 0 ∧ s.device ≠ 0 ∧
    (TvgWgEngine.init created s).state
      = { s with inst := if s.inst = 0 then created else s.inst } := by
  unfold TvgWgEngine.init at h0 ⊢
  rcases s with ⟨i, a, d, ar, dr, f⟩
  by_cases hf : f = true <;> by_cases hi : i = 0 <;> by_cases ha : a = 0 <;>
    by_cases hd : d = 0 <;> cases ar <;> cases dr <;> simp_all

/-- A poll of a binding whose instance, adapter and device are set and which is not
failed returns 0, makes no call and changes nothing. -/
theorem init_of_ready (created : Nat) (s : WgState) (hf : s.initializationFailed = false)
    (hi : s.inst ≠ 0) (ha : s.adapter ≠ 0) (hd : s.device ≠ 0) :
    TvgWgEngine.init created s = ⟨0, s, []⟩ := by
  unfold TvgWgEngine.init
  rcases s with ⟨i, a, d, ar, dr, f⟩
  cases dr <;> simp_all

/-- Consecutive polls of a ready binding all return 0, make no call, change nothing. -/
theorem pollMany_of_ready (cs : List Nat) (s : WgState) (hf : s.initializationFailed = false)
    (hi : s.inst ≠ 0) (ha : s.adapter ≠ 0) (hd : s.device ≠ 0) :
    ∀ r ∈ pollMany s cs, r = ⟨0, s, []⟩ := by
  induction cs with
  | nil => simp [pollMany]
  | cons c rest ih =>
    intro r hr
    simp only [pollMany, init_of_ready c s hf hi ha hd, List.mem_cons] at hr
    rcases hr with hr | hr
    · exact hr
    · exact ih r hr

/-- Function `pollMany` yields one result per poll. -/
theorem pollMany_length (cs : List Nat) : ∀ s : WgState, (pollMany s cs).length = cs.length := by
  induction cs with
  | nil => intro s; simp [pollMany]
  | cons c rest ih => intro s; simp [pollMany, ih]

/-- A poll of a binding whose adapter and device are set and which is not failed returns
0; the only call it can make is `wgpuCreateInstance`, when the instance is unset. -/
theorem init_of_acquired (created : Nat) (s : WgState) (hf : s.initializationFailed = false)
    (ha : s.adapter ≠ 0) (hd : s.device ≠ 0) :
    TvgWgEngine.init created s
      = ⟨0, { s with inst := if s.inst = 0 then created else s.inst },
          if s.inst = 0 then [WgCall.wgpuCreateInstance] else []⟩ := by
  unfold TvgWgEngine.init
  rcases s with ⟨i, a, d, ar, dr, f⟩
  by_cases hi : i = 0 <;> cases dr <;> simp_all

/-- Consecutive polls of a binding whose adapter and device are set: all return 0, none
issues a request, and adapter, device and the three flags stay as they are. -/
theorem pollMany_of_acquired (cs : List Nat) :
    ∀ s : WgState, s.initializationFailed = false → s.adapter ≠ 0 → s.device ≠ 0 →
      ∀ r ∈ pollMany s cs,
        r.code = 0 ∧ (∀ c ∈ r.calls, c.isRequest = false) ∧
        r.state.adapter = s.adapter ∧ r.state.device = s.device ∧
        r.state.adapterRequested = s.adapterRequested ∧
        r.state.deviceRequested = s.deviceRequested ∧
        r.state.initializationFailed = s.initializationFailed := by
  induction cs with
  | nil => intro s _ _ _ r hr; simp [pollMany] at hr
  | cons c rest ih =>
    intro s hf ha hd r hr
    have hinit := init_of_acquired c s hf ha hd
    simp only [pollMany, List.mem_cons] at hr
    rcases hr with hr | hr
    · rw [hr, hinit]
      refine ⟨rfl, ?_, rfl, rfl, rfl, rfl, rfl⟩
      intro x hx
      by_cases hi : s.inst = 0
      · simp [hi] at hx; simp [hx, WgCall.isRequest]
      · simp [hi] at hx
    · rw [hinit] at hr
      have h := ih { s with inst := if s.inst = 0 then c else s.inst } hf ha hd r hr
      simpa using h

/-- C1: polling scenario from the Uninitialized binding (WebGPU compiled in).  The very
first poll returns 2 whatever `wgpuCreateInstance` returns.  When it returns a non-null
instance: the first poll creates the instance, issues exactly one adapter request on it,
sets `adapterRequested`, returns 2; a second poll with no callback in between makes no
call, changes nothing, returns 2; after the adapter callback succeeds with a non-null
adapter, the next poll issues exactly one device request against that adapter, sets
`deviceRequested`, returns 2; after the device callback succeeds with a non-null device,
the next poll returns 0 (making no call and changing nothing). -/
theorem C1_poll_scenario (b : Build) (hb : b.wg = true) (c1 c2 c3 c4 a d : Nat)
    (hc : c1 ≠ 0) (ha : a ≠ 0) (hd : d ≠ 0) :
    let p1 := init b c1 WgState.uninitialized
    let p2 := init b c2 p1.state
    let s3 := onAdapterRequestEnded true a p2.state
    let p3 := init b c3 s3
    let s4 := onDeviceRequestEnded true d p3.state
    let p4 := init b c4 s4
    (∀ c : Nat, (init b c WgState.uninitialized).code = 2) ∧
    p1.code = 2 ∧
    p1.calls = [WgCall.wgpuCreateInstance, WgCall.wgpuInstanceRequestAdapter c1] ∧
    p1.state = { inst := c1, adapter := 0, device := 0, adapterRequested := true,
                 deviceRequested := false, initializationFailed := false } ∧
    p2.code = 2 ∧ p2.calls = [] ∧ p2.state = p1.state ∧
    s3 = { p2.state with adapter := a } ∧
    p3.code = 2 ∧ p3.calls = [WgCall.wgpuAdapterRequestDevice a] ∧
    p3.state = { s3 with deviceRequested := true } ∧
    s4 = { p3.state with device := d } ∧
    p4.code = 0 ∧ p4.calls = [] ∧ p4.state = s4 := by
  simp [init, hb, TvgWgEngine.init, WgState.uninitialized, onAdapterRequestEnded,
    onDeviceRequestEnded, hc, ha, hd]

/-- C1 at a concrete run: instance handle 1, adapter handle 2, device handle 3. -/
theorem C1_poll_scenario_witness :
    (fullBuild.wg = true ∧ (1 : Nat) ≠ 0 ∧ (2 : Nat) ≠ 0 ∧ (3 : Nat) ≠ 0) ∧
    (init fullBuild 1 WgState.uninitialized).code = 2 ∧
    (init fullBuild 0 (onDeviceRequestEnded true 3
      (init fullBuild 0 (onAdapterRequestEnded true 2
        (init fullBuild 0 (init fullBuild 1 WgState.uninitialized).state).state)).state)).code
      = 0 :=
  ⟨⟨rfl, by decide, by decide, by decide⟩,
   (C1_poll_scenario fullBuild rfl 1 0 0 0 2 3 (by decide) (by decide) (by decide)).2.1,
   (C1_poll_scenario fullBuild rfl 1 0 0 0 2 3 (by decide) (by decide)
      (by decide)).2.2.2.2.2.2.2.2.2.2.2.2.1⟩

/-- C2: failure is sticky.  In every state with `initializationFailed` set, a poll
returns 1, makes no platform call and leaves the statics as they are; and after any
sequence of polls and adapter/device callbacks (no `term()`), the flag is still set and
every poll of the sequence has returned 1 without any platform call. -/
theorem C2_failure_sticky (s : WgState) (hf : s.initializationFailed = true) (created : Nat)
    (evs : List WgEvent) :
    TvgWgEngine.init created s = ⟨1, s, []⟩ ∧
    (runEvents s evs).1.initializationFailed = true ∧
    (∀ r ∈ (runEvents s evs).2, r = (1, [])) ∧
    (runEvents s evs).2.length
      = (evs.filter (fun ev => match ev with
                               | .poll _ => true
                               | _ => false)).length :=
  ⟨init_of_failed created s hf, (runEvents_of_failed evs s hf).1,
   (runEvents_of_failed evs s hf).2, runEvents_length evs s⟩

/-- C2 at a concrete run: the adapter request fails, then the host polls, a late
successful device callback arrives, and the host polls again. -/
theorem C2_failure_sticky_witness :
    (onAdapterRequestEnded false 0 adapterPending).initializationFailed = true ∧
    TvgWgEngine.init 5 (onAdapterRequestEnded false 0 adapterPending)
      = ⟨1, onAdapterRequestEnded false 0 adapterPending, []⟩ ∧
    ∀ r ∈ (runEvents (onAdapterRequestEnded false 0 adapterPending)
      [WgEvent.poll 5, WgEvent.deviceCallback true 9, WgEvent.adapterCallback true 8,
       WgEvent.poll 6]).2, r = (1, []) :=
  ⟨rfl,
   (C2_failure_sticky (onAdapterRequestEnded false 0 adapterPending) rfl 5
      [WgEvent.poll 5, WgEvent.deviceCallback true 9, WgEvent.adapterCallback true 8,
       WgEvent.poll 6]).1,
   (C2_failure_sticky (onAdapterRequestEnded false 0 adapterPending) rfl 5
      [WgEvent.poll 5, WgEvent.deviceCallback true 9, WgEvent.adapterCallback true 8,
       WgEvent.poll 6]).2.2.1⟩

/-- An event that keeps success maps a ready binding (not failed, instance, adapter and
device set) to a ready binding. -/
theorem apply_keeps_ready (s : WgState) (ev : WgEvent) (hev : ev.keepsSuccess = true)
    (hf : s.initializationFailed = false) (hi : s.inst ≠ 0) (ha : s.adapter ≠ 0)
    (hd : s.device ≠ 0) :
    (ev.apply s).initializationFailed = false ∧ (ev.apply s).inst ≠ 0 ∧
    (ev.apply s).adapter ≠ 0 ∧ (ev.apply s).device ≠ 0 := by
  cases ev with
  | poll created =>
    simp only [WgEvent.apply, init_of_ready created s hf hi ha hd]
    exact ⟨hf, hi, ha, hd⟩
  | adapterCallback success a =>
    simp only [WgEvent.keepsSuccess, Bool.and_eq_true, bne_iff_ne, ne_eq] at hev
    simp [WgEvent.apply, onAdapterRequestEnded, hev.1, hev.2, hf, hi, hd]
  | deviceCallback success d =>
    simp only [WgEvent.keepsSuccess, Bool.and_eq_true, bne_iff_ne, ne_eq] at hev
    simp [WgEvent.apply, onDeviceRequestEnded, hev.1, hev.2, hf, hi, ha]

/-- From a ready binding, along any sequence of events that keep success, every poll
returns 0, makes no call and leaves the statics as it found them. -/
theorem pollTrace_of_ready (evs : List WgEvent) :
    ∀ s : WgState, (∀ ev ∈ evs, ev.keepsSuccess = true) →
      s.initializationFailed = false → s.inst ≠ 0 → s.adapter ≠ 0 → s.device ≠ 0 →
      ∀ t ∈ pollTrace s evs, t.2 = ⟨0, t.1, []⟩ := by
  induction evs with
  | nil => intro s _ _ _ _ _ t ht; simp [pollTrace] at ht
  | cons ev rest ih =>
    intro s hev hf hi ha hd t ht
    have hev0 : ev.keepsSuccess = true := hev ev (List.mem_cons_self ev rest)
    have hrest : ∀ e ∈ rest, e.keepsSuccess = true :=
      fun e he => hev e (List.mem_cons_of_mem ev he)
    obtain ⟨hf1, hi1, ha1, hd1⟩ := apply_keeps_ready s ev hev0 hf hi ha hd
    have hih := ih (ev.apply s) hrest hf1 hi1 ha1 hd1
    cases ev with
    | poll created =>
      simp only [pollTrace, List.mem_cons] at ht
      rcases ht with ht | ht
      · rw [ht]
        exact init_of_ready created s hf hi ha hd
      · exact hih t ht
    | adapterCallback success a =>
      simp only [pollTrace] at ht
      exact hih t ht
    | deviceCallback success d =>
      simp only [pollTrace] at ht
      exact hih t ht

/-- The trace has one entry per poll of the sequence. -/
theorem pollTrace_length (evs : List WgEvent) :
    ∀ s : WgState, (pollTrace s evs).length = (evs.filter WgEvent.isPoll).length := by
  induction evs with
  | nil => intro s; simp [pollTrace]
  | cons ev rest ih =>
    intro s
    cases ev <;> simp [pollTrace, WgEvent.isPoll, ih]

/-- C3 as stated fails: with no `term()` after the poll that returned 0, a callback
that reports failure sets `initializationFailed` and the next poll returns 1.  First
from the binding holding instance 1, adapter 2, device 3; then in a whole run from the
Uninitialized binding: poll (adapter request 1), `term()`, poll (adapter request 2),
callback of request 1 succeeds, poll (device request), device callback succeeds, poll
returns 0, callback of request 2 reports failure, poll returns 1. -/
theorem C3_counterexample :
    ((TvgWgEngine.init 0 ⟨1, 2, 3, true, true, false⟩).code = 0 ∧
     (runEvents (TvgWgEngine.init 0 ⟨1, 2, 3, true, true, false⟩).state
        [WgEvent.adapterCallback false 0, WgEvent.poll 0]).2 = [(1, [])]) ∧
    (TvgWgEngine.init 1 WgState.uninitialized).calls
      = [WgCall.wgpuCreateInstance, WgCall.wgpuInstanceRequestAdapter 1] ∧
    (runEvents (TvgWgEngine.term (TvgWgEngine.init 1 WgState.uninitialized).state).1
        [WgEvent.poll 1, WgEvent.adapterCallback true 2, WgEvent.poll 0,
         WgEvent.deviceCallback true 3, WgEvent.poll 0,
         WgEvent.adapterCallback false 0, WgEvent.poll 0]).2
      = [(2, [WgCall.wgpuCreateInstance, WgCall.wgpuInstanceRequestAdapter 1]),
         (2, [WgCall.wgpuAdapterRequestDevice 2]), (0, []), (1, [])] := by
  refine ⟨⟨by decide, by decide⟩, by decide, by decide⟩

/-- C3 (amended): the poll is idempotent at Success as long as no callback interferes.
If a poll returns 0, then every later poll of an uninterrupted series of polls returns
0, issues no adapter or device request and leaves adapter, device and the three flags
unchanged; and provided the instance handle is set after the first poll (it was set
before, or `wgpuCreateInstance` returned a non-null handle), every later poll makes no
platform call at all and leaves all handles and flags unchanged.  Under that same
proviso this extends to any later sequence of polls and callbacks (no `term()`) in
which every callback reports success and hands over a non-null handle: every poll of
the sequence returns 0, makes no platform call and leaves all handles and flags as it
found them. -/
theorem C3_success_idempotent (s : WgState) (c0 : Nat)
    (h0 : (TvgWgEngine.init c0 s).code = 0) (cs : List Nat) (evs : List WgEvent) :
    let s1 := (TvgWgEngine.init c0 s).state
    (pollMany s1 cs).length = cs.length ∧
    (∀ r ∈ pollMany s1 cs,
      r.code = 0 ∧ (∀ c ∈ r.calls, c.isRequest = false) ∧
      r.state.adapter = s1.adapter ∧ r.state.device = s1.device ∧
      r.state.adapterRequested = s1.adapterRequested ∧
      r.state.deviceRequested = s1.deviceRequested ∧
      r.state.initializationFailed = s1.initializationFailed) ∧
    (s.inst ≠ 0 ∨ c0 ≠ 0 → ∀ r ∈ pollMany s1 cs, r = ⟨0, s1, []⟩) ∧
    (pollTrace s1 evs).length = (evs.filter WgEvent.isPoll).length ∧
    (s.inst ≠ 0 ∨ c0 ≠ 0 → (∀ ev ∈ evs, ev.keepsSuccess = true) →
      ∀ t ∈ pollTrace s1 evs, t.2 = ⟨0, t.1, []⟩) := by
  intro s1
  obtain ⟨hf, ha, hd, hs1⟩ := init_code_zero c0 s h0
  have hf1 : s1.initializationFailed = false := by simp [s1, hs1, hf]
  have ha1 : s1.adapter ≠ 0 := by simp [s1, hs1, ha]
  have hd1 : s1.device ≠ 0 := by simp [s1, hs1, hd]
  have hinst : s.inst ≠ 0 ∨ c0 ≠ 0 → s1.inst ≠ 0 := by
    intro hi
    simp only [s1, hs1]
    by_cases h : s.inst = 0
    · rcases hi with hi | hi
      · exact absurd h hi
      · simpa [h] using hi
    · simp [h]
  refine ⟨pollMany_length cs s1, pollMany_of_acquired cs s1 hf1 ha1 hd1, ?_,
    pollTrace_length evs s1, ?_⟩
  · intro hi
    exact pollMany_of_ready cs s1 hf1 (hinst hi) ha1 hd1
  · intro hi hev
    exact pollTrace_of_ready evs s1 hev hf1 (hinst hi) ha1 hd1

/-- C3 (amended) at the binding holding instance 1, adapter 2 and device 3: polled three
more times after the poll that returned 0, and polled with two successful callbacks in
between. -/
theorem C3_success_idempotent_witness :
    (TvgWgEngine.init 0 ⟨1, 2, 3, true, true, false⟩).code = 0 ∧
    (pollMany (TvgWgEngine.init 0 ⟨1, 2, 3, true, true, false⟩).state [0, 7, 0]).length = 3 ∧
    (∀ r ∈ pollMany (TvgWgEngine.init 0 ⟨1, 2, 3, true, true, false⟩).state [0, 7, 0],
      r = ⟨0, (TvgWgEngine.init 0 ⟨1, 2, 3, true, true, false⟩).state, []⟩) ∧
    (∀ t ∈ pollTrace (TvgWgEngine.init 0 ⟨1, 2, 3, true, true, false⟩).state
        [WgEvent.poll 0, WgEvent.adapterCallback true 9, WgEvent.poll 7,
         WgEvent.deviceCallback true 8, WgEvent.poll 0],
      t.2 = ⟨0, t.1, []⟩) :=
  ⟨by decide,
   (C3_success_idempotent ⟨1, 2, 3, true, true, false⟩ 0 (by decide) [0, 7, 0] []).1,
   (C3_success_idempotent ⟨1, 2, 3, true, true, false⟩ 0 (by decide) [0, 7, 0] []).2.2.1
     (Or.inl (by decide)),
   (C3_success_idempotent ⟨1, 2, 3, true, true, false⟩ 0 (by decide) []
     [WgEvent.poll 0, WgEvent.adapterCallback true 9, WgEvent.poll 7,
      WgEvent.deviceCallback true 8, WgEvent.poll 0]).2.2.2.2
     (Or.inl (by decide)) (by decide)⟩

/-- C4: for every state of the binding, `term()` releases exactly the handles that are
set, in the order device, adapter, instance, and leaves the Uninitialized state.  Hence
`term()` on the Uninitialized state releases nothing and changes nothing, a second
`term()` releases nothing and changes nothing, and the first poll after `term()`
returns 2, also when the binding had failed. -/
theorem C4_term_resets (s : WgState) (created : Nat) :
    (TvgWgEngine.term s).1 = WgState.uninitialized ∧
    (TvgWgEngine.term s).2.Sublist
      [WgCall.wgpuDeviceRelease s.device, WgCall.wgpuAdapterRelease s.adapter,
       WgCall.wgpuInstanceRelease s.inst] ∧
    (∀ c ∈ (TvgWgEngine.term s).2,
      c ∈ [WgCall.wgpuDeviceRelease s.device, WgCall.wgpuAdapterRelease s.adapter,
           WgCall.wgpuInstanceRelease s.inst]) ∧
    (WgCall.wgpuDeviceRelease s.device ∈ (TvgWgEngine.term s).2 ↔ s.device ≠ 0) ∧
    (WgCall.wgpuAdapterRelease s.adapter ∈ (TvgWgEngine.term s).2 ↔ s.adapter ≠ 0) ∧
    (WgCall.wgpuInstanceRelease s.inst ∈ (TvgWgEngine.term s).2 ↔ s.inst ≠ 0) ∧
    TvgWgEngine.term WgState.uninitialized = (WgState.uninitialized, []) ∧
    TvgWgEngine.term (TvgWgEngine.term s).1 = ((TvgWgEngine.term s).1, []) ∧
    (TvgWgEngine.init created (TvgWgEngine.term s).1).code = 2 ∧
    (s.initializationFailed = true →
      (TvgWgEngine.init created s).code = 1 ∧
      (TvgWgEngine.init created (TvgWgEngine.term s).1).code = 2) := by
  rcases s with ⟨i, a, d, ar, dr, f⟩
  refine ⟨rfl, ?_, ?_, ?_, ?_, ?_, rfl, rfl, ?_, ?_⟩
  · by_cases hd : d = 0 <;> by_cases ha : a = 0 <;> by_cases hi : i = 0 <;>
      simp [TvgWgEngine.term, hd, ha, hi]
  · by_cases hd : d = 0 <;> by_cases ha : a = 0 <;> by_cases hi : i = 0 <;>
      simp [TvgWgEngine.term, hd, ha, hi]
  · by_cases hd : d = 0 <;> by_cases ha : a = 0 <;> by_cases hi : i = 0 <;>
      simp [TvgWgEngine.term, hd, ha, hi]
  · by_cases hd : d = 0 <;> by_cases ha : a = 0 <;> by_cases hi : i = 0 <;>
      simp [TvgWgEngine.term, hd, ha, hi]
  · by_cases hd : d = 0 <;> by_cases ha : a = 0 <;> by_cases hi : i = 0 <;>
      simp [TvgWgEngine.term, hd, ha, hi]
  · simp [TvgWgEngine.term, TvgWgEngine.init]
  · intro hf
    simp only at hf
    simp [TvgWgEngine.term, TvgWgEngine.init, hf]

/-- C4 at a failed binding holding an instance and an adapter but no device. -/
theorem C4_term_resets_witness :
    (⟨1, 2, 0, true, true, true⟩ : WgState).initializationFailed = true ∧
    (TvgWgEngine.init 5 ⟨1, 2, 0, true, true, true⟩).code = 1 ∧
    (TvgWgEngine.init 5 (TvgWgEngine.term ⟨1, 2, 0, true, true, true⟩).1).code = 2 :=
  ⟨rfl, (C4_term_resets ⟨1, 2, 0, true, true, true⟩ 5).2.2.2.2.2.2.2.2.2 rfl⟩

/-- With a kind that is not compiled in, none of the three `new` statements runs. -/
theorem selectEngine_invalid (b : Build) (engineType : String)
    (hsw : ¬ (b.sw = true ∧ engineType = "sw")) (hgl : ¬ (b.gl = true ∧ engineType = "gl"))
    (hwg : ¬ (b.wg = true ∧ engineType = "wg")) :
    selectEngine b engineType = (none, []) := by
  have h1 : (b.sw && engineType == "sw") = false := by
    cases hb : b.sw <;> simp_all
  have h2 : (b.gl && engineType == "gl") = false := by
    cases hb : b.gl <;> simp_all
  have h3 : (b.wg && engineType == "wg") = false := by
    cases hb : b.wg <;> simp_all
  simp [selectEngine, h1, h2, h3]

/-- Whatever `selectEngine` allocates is a fresh engine object (all members at their
default). -/
theorem selectEngine_fresh (b : Build) (engineType : String) (e : Engine)
    (h : (selectEngine b engineType).1 = some e) : e.resourceUnset = true := by
  unfold selectEngine at h
  by_cases h1 : (b.sw && engineType == "sw") = true <;>
    by_cases h2 : (b.gl && engineType == "gl") = true <;>
    by_cases h3 : (b.wg && engineType == "wg") = true <;>
    simp [h1, h2, h3] at h <;> subst h <;> rfl

/-- C5: for every kind string that is not one of the compiled-in kinds, and every
selector, width and height, the constructor allocates no backend and makes no call at
all (in particular no `init(selector)`), and yields `error() == "Invalid engine"` and
`ptr() == 0`; width and height stay 0. -/
theorem C5_invalid_engine (b : Build) (P : Platform) (g : WgState) (engineType selector : String)
    (w h : Nat)
    (hsw : ¬ (b.sw = true ∧ engineType = "sw")) (hgl : ¬ (b.gl = true ∧ engineType = "gl"))
    (hwg : ¬ (b.wg = true ∧ engineType = "wg")) :
    (TvgCanvas.new b P g engineType selector w h).1.engine = none ∧
    (TvgCanvas.new b P g engineType selector w h).2 = [] ∧
    (TvgCanvas.new b P g engineType selector w h).1.error = "Invalid engine" ∧
    (TvgCanvas.new b P g engineType selector w h).1.ptr = 0 ∧
    (TvgCanvas.new b P g engineType selector w h).1.size = (0, 0) := by
  simp [TvgCanvas.new, selectEngine_invalid b engineType hsw hgl hwg, TvgCanvas.fresh,
    TvgCanvas.error, TvgCanvas.ptr, TvgCanvas.size]

/-- C5 at kind "gl" in a build that has only the software backend. -/
theorem C5_invalid_engine_witness :
    (¬ ((⟨true, false, false⟩ : Build).sw = true ∧ "gl" = "sw") ∧
     ¬ ((⟨true, false, false⟩ : Build).gl = true ∧ "gl" = "gl") ∧
     ¬ ((⟨true, false, false⟩ : Build).wg = true ∧ "gl" = "wg")) ∧
    (TvgCanvas.new ⟨true, false, false⟩ okPlatform WgState.uninitialized "gl" "#canvas"
      100 50).1.error = "Invalid engine" ∧
    (TvgCanvas.new ⟨true, false, false⟩ okPlatform WgState.uninitialized "gl" "#canvas"
      100 50).1.ptr = 0 :=
  ⟨⟨by decide, by decide, by decide⟩,
   (C5_invalid_engine ⟨true, false, false⟩ okPlatform WgState.uninitialized "gl" "#canvas"
      100 50 (by decide) (by decide) (by decide)).2.2.1,
   (C5_invalid_engine ⟨true, false, false⟩ okPlatform WgState.uninitialized "gl" "#canvas"
      100 50 (by decide) (by decide) (by decide)).2.2.2.1⟩

/-- With a null canvas pointer, every operation fails, makes no call and changes
nothing. -/
theorem apply_of_null (g : WgState) (c : TvgCanvas) (hc : c.canvas = 0)
    (op : Platform × CanvasOp) : CanvasOp.apply g c op = (op.2.failure, c, []) := by
  rcases op with ⟨P, op⟩
  cases op with
  | resize w h =>
    cases he : c.engine <;> simp [CanvasOp.apply, TvgCanvas.resize, he, hc, CanvasOp.failure]
  | clear => simp [CanvasOp.apply, TvgCanvas.clear, hc, CanvasOp.failure]
  | render =>
    cases he : c.engine <;> simp [CanvasOp.apply, TvgCanvas.render, he, hc, CanvasOp.failure]

/-- With a null canvas pointer, any sequence of operations leaves the object as it is,
and each operation reports failure without making a call. -/
theorem runOps_of_null (g : WgState) (c : TvgCanvas) (hc : c.canvas = 0)
    (ops : List (Platform × CanvasOp)) :
    runOps g c ops = (c, ops.map (fun op => (op.2.failure, []))) := by
  induction ops with
  | nil => rfl
  | cons op rest ih => simp [runOps, apply_of_null g c hc op, ih]

/-- Member `resize` never touches the canvas pointer or the error message. -/
theorem resize_canvas_errorMsg (P : Platform) (g : WgState) (w h : Nat) (c : TvgCanvas) :
    (c.resize P g w h).self.canvas = c.canvas ∧
    (c.resize P g w h).self.errorMsg = c.errorMsg := by
  unfold TvgCanvas.resize
  cases he : c.engine with
  | none => simp
  | some e =>
    by_cases hc : c.canvas = 0
    · simp [hc]
    · by_cases hwh : c.width = w ∧ c.height = h
      · simp [hc, hwh]
      · simp [hc, hwh]

/-- The canvas pointer of a constructed object is whatever `engine->init(selector)`
returned, and null when no engine was allocated. -/
theorem new_canvas (b : Build) (P : Platform) (g : WgState) (engineType selector : String)
    (w h : Nat) :
    (TvgCanvas.new b P g engineType selector w h).1.canvas
      = match (selectEngine b engineType).1 with
        | none => 0
        | some e => (e.init P g selector).canvas := by
  cases hs : (selectEngine b engineType).1 with
  | none => simp [TvgCanvas.new, hs, TvgCanvas.fresh]
  | some e =>
    by_cases hc : (e.init P g selector).canvas = 0
    · simp [TvgCanvas.new, hs, hc, TvgCanvas.fresh]
    · simp [TvgCanvas.new, hs, hc, (resize_canvas_errorMsg P g w h _).1, TvgCanvas.fresh]

/-- C6: the canvas pointer of a constructed `TvgCanvas` is non-null if and only if a
backend was allocated and its `init(selector)` returned a non-null canvas; and for every
object whose canvas pointer is null, in any sequence of `resize(w,h)`, `clear()` and
`render()` calls each `resize` and `clear` returns false, each `render` returns the
empty value, none makes a call to the backend or the engine, and the object (width,
height, error message, canvas pointer, backend) is unchanged, so the pointer is still
null afterwards. -/
theorem C6_null_canvas_noop (b : Build) (P : Platform) (g : WgState)
    (engineType selector : String) (w h : Nat) (c : TvgCanvas) (hc : c.canvas = 0)
    (ops : List (Platform × CanvasOp)) :
    ((TvgCanvas.new b P g engineType selector w h).1.ptr ≠ 0 ↔
      ∃ e, (selectEngine b engineType).1 = some e ∧ (e.init P g selector).canvas ≠ 0) ∧
    (∀ P1 w1 h1, c.resize P1 g w1 h1 = ⟨false, c, []⟩) ∧
    c.clear = ⟨false, c, []⟩ ∧
    c.render = none ∧
    (runOps g c ops).1 = c ∧
    (runOps g c ops).2 = ops.map (fun op => (op.2.failure, [])) ∧
    (runOps g c ops).1.ptr = 0 := by
  refine ⟨?_, ?_, ?_, ?_, ?_, ?_, ?_⟩
  · unfold TvgCanvas.ptr
    rw [new_canvas]
    cases hs : (selectEngine b engineType).1 with
    | none => simp
    | some e => simp
  · intro P1 w1 h1
    cases he : c.engine <;> simp [TvgCanvas.resize, he, hc]
  · simp [TvgCanvas.clear, hc]
  · cases he : c.engine <;> simp [TvgCanvas.render, he, hc]
  · rw [runOps_of_null g c hc ops]
  · rw [runOps_of_null g c hc ops]
  · rw [runOps_of_null g c hc ops]; exact hc

/-- C6 at a "gl" canvas whose construction failed because the engine's own
initialisation failed. -/
theorem C6_null_canvas_noop_witness :
    (TvgCanvas.new fullBuild engineInitFails WgState.uninitialized "gl" "#canvas"
      100 50).1.canvas = 0 ∧
    (runOps WgState.uninitialized
      (TvgCanvas.new fullBuild engineInitFails WgState.uninitialized "gl" "#canvas" 100 50).1
      [(okPlatform, CanvasOp.resize 10 20), (okPlatform, CanvasOp.clear),
       (okPlatform, CanvasOp.render)]).1
      = (TvgCanvas.new fullBuild engineInitFails WgState.uninitialized "gl" "#canvas"
          100 50).1 ∧
    (runOps WgState.uninitialized
      (TvgCanvas.new fullBuild engineInitFails WgState.uninitialized "gl" "#canvas" 100 50).1
      [(okPlatform, CanvasOp.resize 10 20), (okPlatform, CanvasOp.clear),
       (okPlatform, CanvasOp.render)]).2
      = [(OpValue.bool false, []), (OpValue.bool false, []), (OpValue.view none, [])] :=
  ⟨by decide,
   (C6_null_canvas_noop fullBuild okPlatform WgState.uninitialized "sw" "#canvas" 1 1
      (TvgCanvas.new fullBuild engineInitFails WgState.uninitialized "gl" "#canvas" 100 50).1
      (by decide)
      [(okPlatform, CanvasOp.resize 10 20), (okPlatform, CanvasOp.clear),
       (okPlatform, CanvasOp.render)]).2.2.2.2.1,
   (C6_null_canvas_noop fullBuild okPlatform WgState.uninitialized "sw" "#canvas" 1 1
      (TvgCanvas.new fullBuild engineInitFails WgState.uninitialized "gl" "#canvas" 100 50).1
      (by decide)
      [(okPlatform, CanvasOp.resize 10 20), (okPlatform, CanvasOp.clear),
       (okPlatform, CanvasOp.render)]).2.2.2.2.2.1⟩

/-- C7: for every `TvgCanvas` with a non-null canvas pointer and a backend, and all w, h:
two `resize(w,h)` calls in a row both return true, and the second makes no call at all
(no `sync`, no `target`, no `free`, no `malloc`) and leaves the object, its backend and
the backend's buffer exactly as after the first. -/
theorem C7_resize_idempotent (P1 P2 : Platform) (g : WgState) (c : TvgCanvas) (w h : Nat)
    (hcanvas : c.canvas ≠ 0) (hengine : c.engine ≠ none) :
    (c.resize P1 g w h).ok = true ∧
    ((c.resize P1 g w h).self.resize P2 g w h).ok = true ∧
    ((c.resize P1 g w h).self.resize P2 g w h).calls = [] ∧
    ((c.resize P1 g w h).self.resize P2 g w h).self = (c.resize P1 g w h).self ∧
    (c.resize P1 g w h).self.size = (w, h) ∧
    (∀ buffer, (c.resize P1 g w h).self.engine = some (Engine.sw buffer) →
      ((c.resize P1 g w h).self.resize P2 g w h).self.engine = some (Engine.sw buffer)) := by
  cases he : c.engine with
  | none => exact absurd he hengine
  | some e =>
    by_cases hwh : c.width = w ∧ c.height = h
    · simp [TvgCanvas.resize, he, hcanvas, hwh, TvgCanvas.size]
    · simp [TvgCanvas.resize, he, hcanvas, hwh, TvgCanvas.size]

/-- C7 at a freshly constructed 100x50 software canvas resized twice to 640x480. -/
theorem C7_resize_idempotent_witness :
    ((TvgCanvas.new fullBuild okPlatform WgState.uninitialized "sw" "#canvas" 100 50).1.canvas
      ≠ 0 ∧
     (TvgCanvas.new fullBuild okPlatform WgState.uninitialized "sw" "#canvas" 100 50).1.engine
      ≠ none) ∧
    (((TvgCanvas.new fullBuild okPlatform WgState.uninitialized "sw" "#canvas"
        100 50).1.resize okPlatform WgState.uninitialized 640 480).self.resize
        mallocFails WgState.uninitialized 640 480).calls = [] :=
  ⟨⟨by decide, by decide⟩,
   (C7_resize_idempotent okPlatform mallocFails WgState.uninitialized
      (TvgCanvas.new fullBuild okPlatform WgState.uninitialized "sw" "#canvas" 100 50).1
      640 480 (by decide) (by decide)).2.2.1⟩

/-- The two `uint32_t` multiplications of `w * h * 4` amount to one reduction. -/
theorem u32_mul_four (n : Nat) : u32 (u32 n * 4) = (n * 4) % 2 ^ 32 := by
  unfold u32
  omega

/-- Members `render()` and `clear()` on an object with a canvas and a software backend. -/
theorem sw_render_clear (c : TvgCanvas) (buffer : Nat) (hc : c.canvas ≠ 0)
    (he : c.engine = some (Engine.sw buffer)) :
    c.render = (if buffer = 0 then none
                else some ⟨(c.width * c.height * 4) % 2 ^ 32, buffer⟩) ∧
    c.clear = ⟨true, c, [Call.remove c.canvas]⟩ := by
  refine ⟨?_, ?_⟩
  · by_cases hb : buffer = 0
    · simp [TvgCanvas.render, he, hc, Engine.output, hb]
    · simp [TvgCanvas.render, he, hc, Engine.output, hb, u32_mul_four]
  · simp [TvgCanvas.clear, hc]

/-- Member `resize(w, h)` on an object with a canvas and a software backend. -/
theorem sw_resize (P : Platform) (g : WgState) (c : TvgCanvas) (buffer w h : Nat)
    (hc : c.canvas ≠ 0) (he : c.engine = some (Engine.sw buffer)) :
    (c.resize P g w h).ok = true ∧
    (c.resize P g w h).self
      = { c with width := w, height := h,
                 engine := some (Engine.sw (if c.width = w ∧ c.height = h then buffer
                                            else P.malloc ((w * h * 4) % 2 ^ 32))) } := by
  by_cases hwh : c.width = w ∧ c.height = h
  · obtain ⟨h1, h2⟩ := hwh
    subst h1 h2
    rcases c with ⟨cv, ce, cw, ch, cm⟩
    simp only at he hc
    subst he
    simp [TvgCanvas.resize, hc]
  · simp [TvgCanvas.resize, he, hc, hwh, Engine.resize, u32_mul_four]

/-- A software construction that reports no error. -/
theorem new_sw (b : Build) (P : Platform) (g : WgState) (selector : String) (w h : Nat)
    (hb : b.sw = true)
    (hok : (TvgCanvas.new b P g "sw" selector w h).1.error = "None") :
    P.swCanvasGen ≠ 0 ∧
    (TvgCanvas.new b P g "sw" selector w h).1
      = { canvas := P.swCanvasGen, width := w, height := h, errorMsg := "None",
          engine := some (Engine.sw (if w = 0 ∧ h = 0 then 0
                                     else P.malloc ((w * h * 4) % 2 ^ 32))) } := by
  have hsel : selectEngine b "sw" = (some (Engine.sw 0), [Call.newTvgSwEngine]) := by
    simp [selectEngine, hb]
  have hinit : (Engine.sw 0).init P g selector = TvgSwEngine.init P 0 := rfl
  by_cases hi : P.initializerInit = false
  · simp [TvgCanvas.new, hsel, hinit, TvgSwEngine.init, hi, TvgCanvas.error,
      TvgCanvas.fresh] at hok
  · by_cases hg : P.swCanvasGen = 0
    · simp [TvgCanvas.new, hsel, hinit, TvgSwEngine.init, hi, hg, TvgCanvas.error,
        TvgCanvas.fresh] at hok
    · refine ⟨hg, ?_⟩
      have hi1 : P.initializerInit = true := by simpa using hi
      have hr := (sw_resize P g
        { canvas := P.swCanvasGen, engine := some (Engine.sw 0), width := 0, height := 0,
          errorMsg := "None" } 0 w h hg rfl).2
      by_cases hwh : w = 0 ∧ h = 0
      · obtain ⟨hw0, hh0⟩ := hwh
        subst hw0 hh0
        simp at hr
        simp [TvgCanvas.new, hsel, hinit, TvgSwEngine.init, hi1, hg, TvgCanvas.fresh, hr]
      · have hwh2 : ¬ (0 = w ∧ 0 = h) := fun hh => hwh ⟨hh.1.symm, hh.2.symm⟩
        simp [hwh2] at hr
        simp [TvgCanvas.new, hsel, hinit, TvgSwEngine.init, hi1, hg, TvgCanvas.fresh, hr, hwh]

/-- C8 as stated fails: (1) a software canvas constructed 0x0 reports no error, yet its
initial `resize(0,0)` binds no buffer and `render()` is empty instead of a 0-byte view;
so does a later `resize(0,0)` on it; (2) at 65536x65536 the view has length 0, not
`w*h*4`; (3) when `malloc` returns null, `render()` after `resize(100,50)` is empty. -/
theorem C8_counterexample :
    ((TvgCanvas.new fullBuild okPlatform WgState.uninitialized "sw" "#canvas" 0 0).1.error
        = "None" ∧
     ¬ ∃ v, (TvgCanvas.new fullBuild okPlatform WgState.uninitialized "sw" "#canvas"
        0 0).1.render = some v ∧ v.length = 0 * 0 * 4) ∧
    (((TvgCanvas.new fullBuild okPlatform WgState.uninitialized "sw" "#canvas"
        0 0).1.resize okPlatform WgState.uninitialized 0 0).ok = true ∧
     ((TvgCanvas.new fullBuild okPlatform WgState.uninitialized "sw" "#canvas"
        0 0).1.resize okPlatform WgState.uninitialized 0 0).self.render = none) ∧
    ((65536 : Nat) < 2 ^ 32 ∧
     (TvgCanvas.new fullBuild okPlatform WgState.uninitialized "sw" "#canvas"
        65536 65536).1.error = "None" ∧
     ¬ ∃ v, (TvgCanvas.new fullBuild okPlatform WgState.uninitialized "sw" "#canvas"
        65536 65536).1.render = some v ∧ v.length = 65536 * 65536 * 4) ∧
    ((TvgCanvas.new fullBuild mallocFails WgState.uninitialized "sw" "#canvas" 100 50).1.error
        = "None" ∧
     ¬ ∃ v, (TvgCanvas.new fullBuild mallocFails WgState.uninitialized "sw" "#canvas"
        100 50).1.render = some v ∧ v.length = 100 * 50 * 4) := by
  have h1 : (TvgCanvas.new fullBuild okPlatform WgState.uninitialized "sw" "#canvas"
      0 0).1.render = none := by decide
  have h2 : (TvgCanvas.new fullBuild okPlatform WgState.uninitialized "sw" "#canvas"
      65536 65536).1.render = some ⟨0, 65536⟩ := by decide
  have h3 : (TvgCanvas.new fullBuild mallocFails WgState.uninitialized "sw" "#canvas"
      100 50).1.render = none := by decide
  refine ⟨⟨by decide, ?_⟩, ⟨by decide, by decide⟩, ⟨by decide, by decide, ?_⟩,
    ⟨by decide, ?_⟩⟩
  · rintro ⟨v, hv, -⟩
    rw [h1] at hv
    exact absurd hv (by simp)
  · rintro ⟨v, hv, hl⟩
    rw [h2] at hv
    injection hv with hv
    subst hv
    exact absurd hl (by decide)
  · rintro ⟨v, hv, -⟩
    rw [h3] at hv
    exact absurd hv (by simp)

/-- C8 (amended): software backend, all w, h with `w*h*4 < 2^32`.  A construction with
size (w0, h0) that reports no error yields a non-null canvas of that size whose buffer is
what `malloc(w0*h0*4)` returned, except for size (0, 0), where no buffer is bound.  On any
object with a canvas and a software backend, `resize(w, h)` returns true, stores (w, h),
keeps the buffer when the size is unchanged and otherwise holds what `malloc(w*h*4)`
returned.  In both cases `render()` is empty when the buffer is null and otherwise a
view over the buffer of length exactly `w*h*4`; `clear()` returns true and `render()`
after it yields the same. -/
theorem C8_sw_view_length (b : Build) (P : Platform) (g : WgState) (selector : String)
    (w0 h0 : Nat) (hb : b.sw = true)
    (hok : (TvgCanvas.new b P g "sw" selector w0 h0).1.error = "None")
    (hsz0 : w0 * h0 * 4 < 2 ^ 32)
    (c : TvgCanvas) (buffer : Nat) (hc : c.canvas ≠ 0) (he : c.engine = some (Engine.sw buffer))
    (P1 : Platform) (w h : Nat) (hsz : w * h * 4 < 2 ^ 32) :
    let c0 := (TvgCanvas.new b P g "sw" selector w0 h0).1
    let buffer0 := if w0 = 0 ∧ h0 = 0 then 0 else P.malloc (w0 * h0 * 4)
    let c1 := (c.resize P1 g w h).self
    let buffer1 := if c.width = w ∧ c.height = h then buffer else P1.malloc (w * h * 4)
    (c0.ptr ≠ 0 ∧ c0.size = (w0, h0) ∧ c0.engine = some (Engine.sw buffer0) ∧
     c0.render = (if buffer0 = 0 then none else some ⟨w0 * h0 * 4, buffer0⟩) ∧
     c0.clear.ok = true ∧ c0.clear.self.render = c0.render) ∧
    ((c.resize P1 g w h).ok = true ∧ c1.size = (w, h) ∧ c1.engine = some (Engine.sw buffer1) ∧
     c1.render = (if buffer1 = 0 then none else some ⟨w * h * 4, buffer1⟩) ∧
     c1.clear.ok = true ∧ c1.clear.self.render = c1.render) := by
  intro c0 buffer0 c1 buffer1
  obtain ⟨hgen, hnew⟩ := new_sw b P g selector w0 h0 hb hok
  obtain ⟨hrok, hrself⟩ := sw_resize P1 g c buffer w h hc he
  rw [Nat.mod_eq_of_lt hsz0] at hnew
  rw [Nat.mod_eq_of_lt hsz] at hrself
  have hc0 : c0.canvas ≠ 0 := by simp only [c0, hnew]; exact hgen
  have he0 : c0.engine = some (Engine.sw buffer0) := by simp only [c0, hnew, buffer0]
  have hc1 : c1.canvas ≠ 0 := by simp only [c1, hrself]; exact hc
  have he1 : c1.engine = some (Engine.sw buffer1) := by simp only [c1, hrself, buffer1]
  have hw0 : c0.width = w0 ∧ c0.height = h0 := by simp only [c0, hnew, and_self]
  have hw1 : c1.width = w ∧ c1.height = h := by simp only [c1, hrself, and_self]
  have r0 := sw_render_clear c0 buffer0 hc0 he0
  have r1 := sw_render_clear c1 buffer1 hc1 he1
  rw [hw0.1, hw0.2, Nat.mod_eq_of_lt hsz0] at r0
  rw [hw1.1, hw1.2, Nat.mod_eq_of_lt hsz] at r1
  refine ⟨⟨hc0, ?_, he0, r0.1, ?_, ?_⟩, ⟨hrok, ?_, he1, r1.1, ?_, ?_⟩⟩
  · simp [TvgCanvas.size, hw0]
  · rw [r0.2]
  · rw [r0.2]
  · simp [TvgCanvas.size, hw1]
  · rw [r1.2]
  · rw [r1.2]

/-- C8 (amended) at kind "sw", selector "#canvas", 100x50 with a `malloc` that succeeds:
no error, size (100, 50), a 20000-byte view, also after `clear()`; and the same view
after a 0x0 construction followed by `resize(100, 50)`. -/
theorem C8_sw_view_length_witness :
    (fullBuild.sw = true ∧
     (TvgCanvas.new fullBuild okPlatform WgState.uninitialized "sw" "#canvas" 100 50).1.error
       = "None" ∧
     100 * 50 * 4 < 2 ^ 32 ∧
     (TvgCanvas.new fullBuild okPlatform WgState.uninitialized "sw" "#canvas" 0 0).1.canvas
       ≠ 0 ∧
     (TvgCanvas.new fullBuild okPlatform WgState.uninitialized "sw" "#canvas" 0 0).1.engine
       = some (Engine.sw 0)) ∧
    (TvgCanvas.new fullBuild okPlatform WgState.uninitialized "sw" "#canvas" 100 50).1.size
      = (100, 50) ∧
    (TvgCanvas.new fullBuild okPlatform WgState.uninitialized "sw" "#canvas" 100 50).1.render
      = some ⟨20000, 65536⟩ ∧
    (TvgCanvas.new fullBuild okPlatform WgState.uninitialized "sw" "#canvas"
      100 50).1.clear.self.render = some ⟨20000, 65536⟩ ∧
    ((TvgCanvas.new fullBuild okPlatform WgState.uninitialized "sw" "#canvas"
      0 0).1.resize okPlatform WgState.uninitialized 100 50).self.render
      = some ⟨20000, 65536⟩ :=
  ⟨⟨rfl, by decide, by decide, by decide, by decide⟩,
   (C8_sw_view_length fullBuild okPlatform WgState.uninitialized "#canvas" 100 50 rfl
      (by decide) (by decide)
      (TvgCanvas.new fullBuild okPlatform WgState.uninitialized "sw" "#canvas" 0 0).1 0
      (by decide) (by decide) okPlatform 100 50 (by decide)).1.2.1,
   (C8_sw_view_length fullBuild okPlatform WgState.uninitialized "#canvas" 100 50 rfl
      (by decide) (by decide)
      (TvgCanvas.new fullBuild okPlatform WgState.uninitialized "sw" "#canvas" 0 0).1 0
      (by decide) (by decide) okPlatform 100 50 (by decide)).1.2.2.2.1,
   by decide,
   (C8_sw_view_length fullBuild okPlatform WgState.uninitialized "#canvas" 100 50 rfl
      (by decide) (by decide)
      (TvgCanvas.new fullBuild okPlatform WgState.uninitialized "sw" "#canvas" 0 0).1 0
      (by decide) (by decide) okPlatform 100 50 (by decide)).2.2.2.2.1⟩

/-- C9 as stated fails: after the first poll (instance created, adapter requested,
neither adapter nor device resolved, `init()` still returning 2), on a platform where
surface creation and the rendering engine succeed, `TvgWgEngine::init(selector)`
returns a non-null canvas and a "wg" `TvgCanvas` is constructed with `error() == "None"`
and a non-zero `ptr()`. -/
theorem C9_counterexample :
    adapterPending.adapter = 0 ∧ adapterPending.device = 0 ∧
    (TvgWgEngine.init 0 adapterPending).code = 2 ∧
    (TvgWgEngine.initSurface okPlatform adapterPending "#canvas").canvas ≠ 0 ∧
    (TvgCanvas.new fullBuild okPlatform adapterPending "wg" "#canvas" 100 50).1.error = "None" ∧
    (TvgCanvas.new fullBuild okPlatform adapterPending "wg" "#canvas" 100 50).1.ptr ≠ 0 := by
  refine ⟨by decide, by decide, by decide, by decide, by decide, by decide⟩

/-- C9 (amended): `TvgWgEngine::init(selector)` does not consult the adapter, the device
or the three flags: its result is the same for any two states of the binding with the
same instance handle.  It returns null exactly when `wgpuInstanceCreateSurface` returns
a null surface, `Initializer::init()` fails, or `WgCanvas::gen()` returns null.
Constructing a "wg" `TvgCanvas` yields `error() == "Canvas initialization failed"` and
`ptr() == 0` exactly in that case, and otherwise `error() == "None"` and the non-zero
canvas pointer, whether or not `init()` has returned 0. -/
theorem C9_wg_acquire (b : Build) (P : Platform) (g : WgState) (selector : String) (w h : Nat)
    (hb : b.wg = true) :
    (∀ g1 : WgState, g1.inst = g.inst →
      TvgWgEngine.initSurface P g1 selector = TvgWgEngine.initSurface P g selector) ∧
    ((TvgWgEngine.initSurface P g selector).canvas = 0 ↔
      (P.wgpuInstanceCreateSurface g.inst selector = 0 ∨ P.initializerInit = false ∨
        P.wgCanvasGen = 0)) ∧
    ((TvgWgEngine.initSurface P g selector).canvas = 0 →
      (TvgCanvas.new b P g "wg" selector w h).1.error = "Canvas initialization failed" ∧
      (TvgCanvas.new b P g "wg" selector w h).1.ptr = 0) ∧
    ((TvgWgEngine.initSurface P g selector).canvas ≠ 0 →
      (TvgCanvas.new b P g "wg" selector w h).1.error = "None" ∧
      (TvgCanvas.new b P g "wg" selector w h).1.ptr
        = (TvgWgEngine.initSurface P g selector).canvas) := by
  have hsel : selectEngine b "wg" = (some (Engine.wg 0), [Call.newTvgWgEngine]) := by
    simp [selectEngine, hb]
  have hinit : (Engine.wg 0).init P g selector = TvgWgEngine.initSurface P g selector := rfl
  refine ⟨?_, ?_, ?_, ?_⟩
  · intro g1 hg1
    simp [TvgWgEngine.initSurface, hg1]
  · unfold TvgWgEngine.initSurface
    by_cases hs : P.wgpuInstanceCreateSurface g.inst selector = 0
    · simp [hs]
    · by_cases hi : P.initializerInit = false
      · simp [hs, hi]
      · simp [hs, hi]
  · intro hnull
    simp [TvgCanvas.new, hsel, hinit, hnull, TvgCanvas.error, TvgCanvas.ptr, TvgCanvas.fresh]
  · intro hcv
    have hr := resize_canvas_errorMsg P g w h
      { TvgCanvas.fresh with engine := some (TvgWgEngine.initSurface P g selector).engine,
                             canvas := (TvgWgEngine.initSurface P g selector).canvas }
    simp only [TvgCanvas.new, hsel, hinit, hcv, if_false, TvgCanvas.error, TvgCanvas.ptr]
    exact ⟨hr.2, hr.1⟩

/-- C9 (amended) at the binding after its first poll, on a platform where every call
succeeds, and on one where the rendering engine fails to initialise. -/
theorem C9_wg_acquire_witness :
    fullBuild.wg = true ∧
    ((TvgWgEngine.initSurface okPlatform adapterPending "#canvas").canvas = 0 ↔
      (okPlatform.wgpuInstanceCreateSurface adapterPending.inst "#canvas" = 0 ∨
        okPlatform.initializerInit = false ∨ okPlatform.wgCanvasGen = 0)) ∧
    (TvgCanvas.new fullBuild engineInitFails adapterPending "wg" "#canvas" 100 50).1.error
      = "Canvas initialization failed" ∧
    (TvgCanvas.new fullBuild engineInitFails adapterPending "wg" "#canvas" 100 50).1.ptr = 0 :=
  ⟨rfl,
   (C9_wg_acquire fullBuild okPlatform adapterPending "#canvas" 100 50 rfl).2.1,
   (C9_wg_acquire fullBuild engineInitFails adapterPending "#canvas" 100 50 rfl).2.2.1
     (by decide)⟩

/-- C10 as stated fails: when `Initializer::init()` fails after the GL context (handle 7)
or the GPU surface (handle 7) was created, `init(selector)` returns null and the
context / surface member still holds the handle. -/
theorem C10_counterexample :
    ((Engine.gl 0).init engineInitFails WgState.uninitialized "#canvas").canvas = 0 ∧
    ((Engine.gl 0).init engineInitFails WgState.uninitialized "#canvas").engine = Engine.gl 7 ∧
    ((Engine.gl 0).init engineInitFails WgState.uninitialized "#canvas").engine.resourceUnset
      = false ∧
    ((Engine.wg 0).init engineInitFails ⟨1, 2, 3, true, true, false⟩ "#canvas").canvas = 0 ∧
    ((Engine.wg 0).init engineInitFails ⟨1, 2, 3, true, true, false⟩ "#canvas").engine
      = Engine.wg 7 ∧
    ((Engine.wg 0).init engineInitFails ⟨1, 2, 3, true, true, false⟩
      "#canvas").engine.resourceUnset = false := by
  refine ⟨by decide, by decide, by decide, by decide, by decide, by decide⟩

/-- C10 (amended): when `init(selector)` of a freshly allocated backend returns null, the
Software buffer is null; the OpenGL context member is whatever
`emscripten_webgl_create_context` returned and the WebGPU surface member whatever
`wgpuInstanceCreateSurface` returned, so the member is unset exactly when that creation
itself failed.  A context or surface left in the member is released by the backend's
destructor. -/
theorem C10_failed_acquire (P : Platform) (g : WgState) (selector : String) (e : Engine)
    (hfresh : e.resourceUnset = true) (hnull : (e.init P g selector).canvas = 0) :
    (∀ buffer, e = Engine.sw buffer → (e.init P g selector).engine = Engine.sw 0) ∧
    (∀ context, e = Engine.gl context →
      (e.init P g selector).engine = Engine.gl (P.emscripten_webgl_create_context selector)) ∧
    (∀ surface, e = Engine.wg surface →
      (e.init P g selector).engine = Engine.wg (P.wgpuInstanceCreateSurface g.inst selector)) ∧
    ((e.init P g selector).engine.resourceUnset = true ↔
      ((∃ buffer, e = Engine.sw buffer) ∨
       ((∃ context, e = Engine.gl context) ∧ P.emscripten_webgl_create_context selector = 0) ∨
       ((∃ surface, e = Engine.wg surface) ∧
          P.wgpuInstanceCreateSurface g.inst selector = 0))) ∧
    (∀ context, (e.init P g selector).engine = Engine.gl context → context ≠ 0 →
      Call.emscripten_webgl_destroy_context context ∈ (e.init P g selector).engine.destroy) ∧
    (∀ surface, (e.init P g selector).engine = Engine.wg surface → surface ≠ 0 →
      Call.wgpuSurfaceRelease surface ∈ (e.init P g selector).engine.destroy) := by
  have hsw : ∀ buffer, (TvgSwEngine.init P buffer).engine = Engine.sw buffer := by
    intro buffer
    unfold TvgSwEngine.init
    by_cases hi : P.initializerInit = false <;> simp [hi]
  have hgl : (TvgGlEngine.init P selector).engine
      = Engine.gl (P.emscripten_webgl_create_context selector) := by
    unfold TvgGlEngine.init
    by_cases hs : P.emscripten_webgl_create_context selector = 0 <;>
      by_cases hi : P.initializerInit = false <;> simp [hs, hi]
  have hwg : (TvgWgEngine.initSurface P g selector).engine
      = Engine.wg (P.wgpuInstanceCreateSurface g.inst selector) := by
    unfold TvgWgEngine.initSurface
    by_cases hs : P.wgpuInstanceCreateSurface g.inst selector = 0 <;>
      by_cases hi : P.initializerInit = false <;> simp [hs, hi]
  cases e with
  | sw buffer =>
    have hb : buffer = 0 := by simpa [Engine.resourceUnset] using hfresh
    subst hb
    simp [Engine.init, hsw, Engine.resourceUnset]
  | gl context =>
    simp [Engine.init, hgl, Engine.resourceUnset, Engine.destroy]
  | wg surface =>
    simp [Engine.init, hwg, Engine.resourceUnset, Engine.destroy]

/-- C10 (amended) at a fresh OpenGL backend whose context is created (handle 7) before
the rendering engine fails to initialise. -/
theorem C10_failed_acquire_witness :
    ((Engine.gl 0).resourceUnset = true ∧
     ((Engine.gl 0).init engineInitFails WgState.uninitialized "#canvas").canvas = 0) ∧
    ((Engine.gl 0).init engineInitFails WgState.uninitialized "#canvas").engine
      = Engine.gl (engineInitFails.emscripten_webgl_create_context "#canvas") ∧
    Call.emscripten_webgl_destroy_context 7
      ∈ ((Engine.gl 0).init engineInitFails WgState.uninitialized "#canvas").engine.destroy :=
  ⟨⟨rfl, by decide⟩,
   (C10_failed_acquire engineInitFails WgState.uninitialized "#canvas" (Engine.gl 0) rfl
      (by decide)).2.1 0 rfl,
   (C10_failed_acquire engineInitFails WgState.uninitialized "#canvas" (Engine.gl 0) rfl
      (by decide)).2.2.2.2.1 7 (by decide) (by decide)⟩

end ThorVG
